import Mathlib

/-!
The streaming / control server `rtl_udp`.

A shallow embedding of `src/rtl_udp.c`: the controller loop
(`udp_control_thread`), the streamer loop (`udp_server_thread`), the signal
handler and the set-up part of `main`, followed by theorems about them.

Conventions.
* A byte (`unsigned char`) is a `Fin 256`; wider machine integers are `Nat`
  or `Int` with the reduction modulo `2 ^ w` written out where the C code
  converts.
* Library calls whose code is outside the repository (the device driver,
  the socket layer, `getopt`) are not re-implemented: what they return is
  given by the event that drives an iteration, or by a field of `Platform`.
* Each loop is driven by a finite list of events: the events are what the
  environment delivers, in order, between two evaluations of the loop
  condition `!do_exit`.
-/

namespace RtlUdp

/-! ## Constants -/

/-- The constant `DEFAULT_SAMPLE_RATE`. -/
def DEFAULT_SAMPLE_RATE : Nat := 2048000

/-- The constant `DEFAULT_FREQ`. -/
def DEFAULT_FREQ : Nat := 100000000

/-- The constant `DEFAULT_PORT`. -/
def DEFAULT_PORT : Int := 1234

/-- The constant `DEFAULT_CTRL_PORT` (defined by the source, used nowhere). -/
def DEFAULT_CTRL_PORT : Int := 1235

/-- The constant `DEFAULT_DEST_IP`. -/
def DEFAULT_DEST_IP : String := "127.0.0.1"

/-- The constant `BUFFER_SIZE`. -/
def BUFFER_SIZE : Nat := 16384

/-- The size of `cmd_buffer`, declared `unsigned char cmd_buffer[1024]`. -/
def CMD_BUFFER_SIZE : Nat := 1024

/-! ## Data model -/

/-- An `unsigned char`. -/
abbrev Byte := Fin 256

/-- The part of a `struct sockaddr_in` the program fills in: the text handed
to `inet_addr` and the 16-bit port number that `sin_port` carries. -/
structure sockaddr_in where
  sin_addr : String
  sin_port : Nat
  deriving DecidableEq, Repr

/-- One call of `sendto(sockfd, buffer, n, 0, &dest_addr, ...)`. -/
structure Sendto where
  dest : sockaddr_in
  payload : List Byte
  deriving DecidableEq, Repr

/-- A call of one of the three device setters, with its argument. -/
inductive Call where
  | set_center_freq (freq : Nat)
  | set_sample_rate (rate : Nat)
  | set_tuner_gain (gain : Int)
  deriving DecidableEq, Repr

/-- What lies outside the repository and is fixed for a run: the byte order of
the host and the device driver's setters over a device state `D`. A setter
returns its status (negative on failure) and the device state after the call. -/
structure Platform (D : Type) where
  little_endian : Bool
  rtlsdr_set_center_freq : D → Nat → Int × D
  rtlsdr_set_sample_rate : D → Nat → Int × D
  rtlsdr_set_tuner_gain : D → Int → Int × D

/-- The globals of the program (`do_exit`, `dev`, `dest_addr`, the two
sockets), the two loops' local buffers, and the record of what the program did:
setter calls, number of device reads, lines the program itself writes to
`stderr` with `fprintf`, datagrams handed to `sendto`. -/
structure State (D : Type) where
  do_exit : Bool
  dev : D
  dest_addr : sockaddr_in
  buffer : List Byte
  cmd_buffer : List Byte
  sockfd_closed : Bool
  ctrl_sockfd_closed : Bool
  calls : List Call
  reads : Nat
  log : List String
  sent : List Sendto

/-- What one `recvfrom` on the control socket delivers: a failure (return
value -1) or a datagram. -/
inductive RecvResult where
  | error
  | datagram (bytes : List Byte)
  deriving DecidableEq, Repr

/-- What one `rtlsdr_read_sync(dev, buffer, BUFFER_SIZE, &n)` delivers: the
status `r`, the value `n` holds after the call, and the bytes the device wrote
at the start of the block. -/
structure ReadResult where
  r : Int
  n : Int
  written : List Byte
  deriving DecidableEq, Repr

/-- An event seen by the controller loop: a signal handled before the next
test of `do_exit`, or the completion of the blocking `recvfrom`. -/
inductive CtrlEvent where
  | signal
  | recv (res : RecvResult)
  deriving DecidableEq, Repr

/-- An event seen by the streamer loop: a signal handled before the next test
of `do_exit`, or the completion of the device read. -/
inductive DataEvent where
  | signal
  | read (res : ReadResult)
  deriving DecidableEq, Repr

/-! ## Byte order -/

/-- The value of `*(uint32_t *)(buf + off)`: four bytes read in the byte order
of the host. -/
def load_u32 (little_endian : Bool) (buf : List Byte) (off : Nat) : Nat :=
  let b0 := (buf.getD off 0).val
  let b1 := (buf.getD (off + 1) 0).val
  let b2 := (buf.getD (off + 2) 0).val
  let b3 := (buf.getD (off + 3) 0).val
  if little_endian then b0 + b1 * 2 ^ 8 + b2 * 2 ^ 16 + b3 * 2 ^ 24
  else b0 * 2 ^ 24 + b1 * 2 ^ 16 + b2 * 2 ^ 8 + b3

/-- Byte reversal of a 32-bit value. -/
def bswap32 (x : Nat) : Nat :=
  (x % 256) * 2 ^ 24 + (x / 2 ^ 8 % 256) * 2 ^ 16 + (x / 2 ^ 16 % 256) * 2 ^ 8
    + x / 2 ^ 24 % 256

/-- The function `ntohl`: the identity on a big-endian host, a byte reversal otherwise. -/
def ntohl (little_endian : Bool) (x : Nat) : Nat :=
  if little_endian then bswap32 x else x

/-- Conversion of a `uint32_t` to `int` (`int gain = ntohl(...)`): the same 32
bits read as two's complement. -/
def to_int32 (v : Nat) : Int :=
  if v % 2 ^ 32 < 2 ^ 31 then (v % 2 ^ 32 : Nat) else ((v % 2 ^ 32 : Nat) : Int) - 2 ^ 32

/-! ## Signal handler -/

/-- The handler `sighandler`: writes a line and sets `do_exit`. -/
def sighandler {D : Type} (st : State D) : State D :=
  { st with log := st.log ++ ["Signal caught, exiting!\n"], do_exit := true }

/-! ## Controller loop -/

/-- The return value of `recvfrom(ctrl_sockfd, cmd_buffer, sizeof(cmd_buffer), ...)`:
-1 on failure, otherwise the number of bytes stored (a longer datagram is cut
to the size of the buffer). -/
def recvfrom_ret : RecvResult → Int
  | .error => -1
  | .datagram bytes => (min bytes.length CMD_BUFFER_SIZE : Nat)

/-- The contents of `cmd_buffer` after `recvfrom`: the received bytes overwrite
the start of the buffer, the rest keeps what it held. -/
def recvfrom_buf : RecvResult → List Byte → List Byte
  | .error, old => old
  | .datagram bytes, old =>
      bytes.take CMD_BUFFER_SIZE ++ old.drop (min bytes.length CMD_BUFFER_SIZE)

/-- The body of the `while (!do_exit)` loop of `udp_control_thread`, run on
what `recvfrom` delivered. The status returned by a setter is dropped, as in
the source. -/
def ctrl_iter {D : Type} (P : Platform D) (res : RecvResult) (st : State D) : State D :=
  let n := recvfrom_ret res
  let st := { st with cmd_buffer := recvfrom_buf res st.cmd_buffer }
  if n ≤ 0 then st
  else
    match (st.cmd_buffer.getD 0 0).val with
    | 0x01 =>
        if n ≥ 5 then
          let freq := ntohl P.little_endian (load_u32 P.little_endian st.cmd_buffer 1)
          { st with dev := (P.rtlsdr_set_center_freq st.dev freq).2,
                    calls := st.calls ++ [Call.set_center_freq freq] }
        else st
    | 0x02 =>
        if n ≥ 5 then
          let rate := ntohl P.little_endian (load_u32 P.little_endian st.cmd_buffer 1)
          { st with dev := (P.rtlsdr_set_sample_rate st.dev rate).2,
                    calls := st.calls ++ [Call.set_sample_rate rate] }
        else st
    | 0x03 =>
        if n ≥ 5 then
          let gain := to_int32 (ntohl P.little_endian (load_u32 P.little_endian st.cmd_buffer 1))
          { st with dev := (P.rtlsdr_set_tuner_gain st.dev gain).2,
                    calls := st.calls ++ [Call.set_tuner_gain gain] }
        else st
    | op => { st with log := st.log ++ ["Unknown command: " ++ toString op ++ "\n"] }

/-- One event of the controller loop. -/
def ctrl_step {D : Type} (P : Platform D) : CtrlEvent → State D → State D
  | .signal, st => sighandler st
  | .recv res, st => ctrl_iter P res st

/-- The thread function `udp_control_thread`: while `do_exit` is clear the loop takes the next
event; once `do_exit` is seen set it leaves the loop and closes the control
socket. When the events run out with `do_exit` clear the thread is still in
the loop (blocked in `recvfrom`) and the socket is open. -/
def udp_control_thread {D : Type} (P : Platform D) : List CtrlEvent → State D → State D
  | [], st => if st.do_exit then { st with ctrl_sockfd_closed := true } else st
  | ev :: rest, st =>
      if st.do_exit then { st with ctrl_sockfd_closed := true }
      else udp_control_thread P rest (ctrl_step P ev st)

/-! ## Streamer loop -/

/-- The contents of `buffer` after the device read: the bytes written overwrite
the start of the block (at most `BUFFER_SIZE` of them), the rest keeps what it
held. -/
def read_sync_buf (written old : List Byte) : List Byte :=
  written.take BUFFER_SIZE ++ old.drop (min written.length BUFFER_SIZE)

/-- The body of the `while (!do_exit)` loop of `udp_server_thread`, run on what
the device read delivered. -/
def server_iter {D : Type} (res : ReadResult) (st : State D) : State D :=
  let st := { st with reads := st.reads + 1, buffer := read_sync_buf res.written st.buffer }
  if res.r < 0 ∨ res.n ≤ 0 then
    { st with log := st.log ++ ["read error or no data\n"] }
  else
    { st with sent := st.sent ++ [{ dest := st.dest_addr, payload := st.buffer.take res.n.toNat }] }

/-- One event of the streamer loop. -/
def server_step {D : Type} : DataEvent → State D → State D
  | .signal, st => sighandler st
  | .read res, st => server_iter res st

/-- The thread function `udp_server_thread`: while `do_exit` is clear the loop takes the next event;
once `do_exit` is seen set it leaves the loop and closes the data socket. -/
def udp_server_thread {D : Type} : List DataEvent → State D → State D
  | [], st => if st.do_exit then { st with sockfd_closed := true } else st
  | ev :: rest, st =>
      if st.do_exit then { st with sockfd_closed := true }
      else udp_server_thread rest (server_step ev st)

/-! ## Set-up in `main` -/

/-- The C library's `isspace` in the C locale. -/
def isspace (c : Char) : Bool :=
  c == ' ' || c == '\t' || c == '\n' || c == '\r' || c.toNat == 11 || c.toNat == 12

/-- The decimal digits at the start of a text, accumulated as `atoi` does. -/
def atoi_digits : List Char → Nat → Nat
  | [], acc => acc
  | c :: cs, acc => if c.isDigit then atoi_digits cs (acc * 10 + (c.toNat - 48)) else acc

/-- The C library's `atoi`: leading white space, an optional sign, then
decimal digits; anything after them is ignored. The value is kept as a
mathematical integer (outside the range of `int` the C function has no
defined result). -/
def atoi (s : String) : Int :=
  match s.toList.dropWhile isspace with
  | '-' :: cs => -(atoi_digits cs 0 : Int)
  | '+' :: cs => (atoi_digits cs 0 : Int)
  | cs => (atoi_digits cs 0 : Int)

/-- The two calls `strtok(optarg, ":")` and `strtok(NULL, ":")` of the `-u`
case: the first and the second non-empty field between colons, each `none`
when `strtok` returns `NULL`. -/
def strtok2 (optarg : String) : Option String × Option String :=
  let s1 := optarg.toList.dropWhile (fun c => c == ':')
  if s1 = [] then (none, none)
  else
    let tok1 := s1.takeWhile (fun c => c != ':')
    let s2 := ((s1.dropWhile (fun c => c != ':')).drop 1).dropWhile (fun c => c == ':')
    if s2 = [] then (some (String.mk tok1), none)
    else (some (String.mk tok1), some (String.mk (s2.takeWhile (fun c => c != ':'))))

/-- The text `usage()` writes before it ends the process with status 1. -/
def usage_text : String :=
  "rtl_udp, an I/Q spectrum server for RTL2832 based DVB-T receivers\n\n"
    ++ "Usage:\t[-f frequency_to_tune_to [Hz]]\n"
    ++ "\t[-s samplerate (default: 2048000 Hz)]\n"
    ++ "\t[-d device_index (default: 0)]\n"
    ++ "\t[-g gain (default: 0 for auto)]\n"
    ++ "\t[-p listen_port (default: 1234)]\n"
    ++ "\t[-u dest_ip:dest_port (default: 127.0.0.1:1234)]\n"

/-- The two conversions of `main` that go through `atof` (floating point, not
modelled): `(uint32_t)atof(optarg)` and `(int)(atof(optarg) * 10)`. -/
structure FloatConv where
  to_u32 : String → Nat
  gain_tenths : String → Int

/-- The local variables of `main` that the option loop assigns. -/
structure Locals where
  freq : Nat
  samp_rate : Nat
  gain : Int
  dev_index : Int
  port : Int
  dest_ip : Option String
  dest_port : Int
  deriving DecidableEq, Repr

/-- The initial values of the locals of `main`. -/
def Locals.init : Locals :=
  { freq := DEFAULT_FREQ, samp_rate := DEFAULT_SAMPLE_RATE, gain := 0, dev_index := 0,
    port := DEFAULT_PORT, dest_ip := some DEFAULT_DEST_IP, dest_port := DEFAULT_PORT }

/-- The `switch (opt)` of the option loop, for one result of `getopt`: the
option character and `optarg`. `none` is the `default:` case, where `usage()`
ends the process with status 1. -/
def parse_opt (fc : FloatConv) (l : Locals) : Char × String → Option Locals
  | ('f', optarg) => some { l with freq := fc.to_u32 optarg }
  | ('s', optarg) => some { l with samp_rate := fc.to_u32 optarg }
  | ('d', optarg) => some { l with dev_index := atoi optarg }
  | ('g', optarg) => some { l with gain := fc.gain_tenths optarg }
  | ('p', optarg) => some { l with port := atoi optarg }
  | ('u', optarg) =>
      match strtok2 optarg with
      | (ip, some port_str) => some { l with dest_ip := ip, dest_port := atoi port_str }
      | (ip, none) => some { l with dest_ip := ip }
  | _ => none

/-- The option loop `while ((opt = getopt(...)) != -1)` over the successive
results of `getopt`. -/
def parse_opts (fc : FloatConv) : List (Char × String) → Locals → Option Locals
  | [], l => some l
  | o :: rest, l =>
      match parse_opt fc l o with
      | some l1 => parse_opts fc rest l1
      | none => none

/-- Conversion of an `int` argument to `uint16_t`. -/
def to_uint16 (x : Int) : Nat := (x % 2 ^ 16).toNat

/-- Byte reversal of a 16-bit value. -/
def bswap16 (x : Nat) : Nat := (x % 256) * 2 ^ 8 + x / 2 ^ 8 % 256

/-- The function `htons`: the identity on a big-endian host, a byte reversal otherwise. -/
def htons (little_endian : Bool) (x : Nat) : Nat :=
  if little_endian then bswap16 x else x

/-- The port number a `sin_port` field denotes: its two bytes in memory order,
most significant first. -/
def sin_port_number (little_endian : Bool) (v : Nat) : Nat :=
  if little_endian then (v % 256) * 2 ^ 8 + v / 2 ^ 8 % 256 else v

/-- The results of the library calls of the set-up phase. -/
structure SetupEnv where
  open_r : Int
  sockfd : Int
  bind_r : Int
  ctrl_sockfd : Int
  ctrl_bind_r : Int
  deriving DecidableEq, Repr

/-- How the set-up phase can end before the threads start. -/
inductive Failure where
  | exit (status : Nat) (message : String)
  | null_dest_ip
  deriving DecidableEq, Repr

/-- What `main` has established when it starts the two threads. -/
structure Setup where
  locals : Locals
  serv_port : Nat
  ctrl_port : Nat
  dest_addr : sockaddr_in
  banner : String
  deriving DecidableEq, Repr

/-- The function `main` up to the start of the threads. `serv_port` and `ctrl_port` are the
port numbers carried by `serv_addr.sin_port` and `ctrl_addr.sin_port` in the two
successful calls of `bind`. `inet_addr(dest_ip)` with a null `dest_ip` has no
defined behaviour and is reported as `null_dest_ip`. -/
def main_setup (little_endian : Bool) (fc : FloatConv) (opts : List (Char × String))
    (env : SetupEnv) : Except Failure Setup :=
  match parse_opts fc opts Locals.init with
  | none => .error (.exit 1 usage_text)
  | some l =>
    if env.open_r < 0 then
      .error (.exit 1 ("Failed to open rtlsdr device #" ++ toString l.dev_index ++ ".\n"))
    else if env.sockfd < 0 then .error (.exit 1 "socket error\n")
    else
      let serv_port := sin_port_number little_endian (htons little_endian (to_uint16 l.port))
      if env.bind_r < 0 then .error (.exit 1 "bind error\n")
      else
        match l.dest_ip with
        | none => .error .null_dest_ip
        | some dest_ip =>
          let dest_addr : sockaddr_in :=
            { sin_addr := dest_ip,
              sin_port := sin_port_number little_endian (htons little_endian (to_uint16 l.dest_port)) }
          if env.ctrl_sockfd < 0 then .error (.exit 1 "control socket error\n")
          else
            let ctrl_port :=
              sin_port_number little_endian (htons little_endian (to_uint16 (l.port + 1)))
            if env.ctrl_bind_r < 0 then .error (.exit 1 "control bind error\n")
            else
              .ok { locals := l, serv_port := serv_port, ctrl_port := ctrl_port,
                    dest_addr := dest_addr,
                    banner := "Streaming to " ++ dest_ip ++ ":" ++ toString l.dest_port
                      ++ ", control on port " ++ toString (l.port + 1) ++ "\n" }

/-- The state in which the two threads start: `do_exit` clear, both sockets
open, nothing done yet. The contents of the two local buffers are not
initialised by the source and are given. -/
def start_state {D : Type} (s : Setup) (dev : D) (buffer cmd_buffer : List Byte) : State D :=
  { do_exit := false, dev := dev, dest_addr := s.dest_addr, buffer := buffer,
    cmd_buffer := cmd_buffer, sockfd_closed := false, ctrl_sockfd_closed := false,
    calls := [], reads := 0, log := [s.banner], sent := [] }

/-! ## Reference definitions used to state the properties -/

/-- Big-endian value of four bytes: `b1*2^24 + b2*2^16 + b3*2^8 + b4`. -/
def be32 (b1 b2 b3 b4 : Byte) : Nat :=
  b1.val * 2 ^ 24 + b2.val * 2 ^ 16 + b3.val * 2 ^ 8 + b4.val

/-- A device whose configuration is the three values last set. -/
structure DevCfg where
  freq : Nat
  rate : Nat
  gain : Int
  deriving DecidableEq, Repr

/-- A platform whose setters store their argument and report success. -/
def storing (little_endian : Bool) : Platform DevCfg :=
  { little_endian := little_endian,
    rtlsdr_set_center_freq := fun d v => (0, { d with freq := v }),
    rtlsdr_set_sample_rate := fun d v => (0, { d with rate := v }),
    rtlsdr_set_tuner_gain := fun d v => (0, { d with gain := v }) }

/-- A platform whose setters all fail with status -1 and leave the device as it is. -/
def failing (little_endian : Bool) : Platform DevCfg :=
  { little_endian := little_endian,
    rtlsdr_set_center_freq := fun d _ => (-1, d),
    rtlsdr_set_sample_rate := fun d _ => (-1, d),
    rtlsdr_set_tuner_gain := fun d _ => (-1, d) }

/-- A state with `do_exit` clear and nothing done yet, for examples. -/
def idle (dev : DevCfg) : State DevCfg :=
  { do_exit := false, dev := dev, dest_addr := { sin_addr := "127.0.0.1", sin_port := 1234 },
    buffer := [], cmd_buffer := [], sockfd_closed := false, ctrl_sockfd_closed := false,
    calls := [], reads := 0, log := [], sent := [] }

/-- The default device configuration of `main`. -/
def default_cfg : DevCfg := { freq := DEFAULT_FREQ, rate := DEFAULT_SAMPLE_RATE, gain := 0 }

/-- All set-up calls succeed. -/
def env_ok : SetupEnv := { open_r := 0, sockfd := 3, bind_r := 0, ctrl_sockfd := 4, ctrl_bind_r := 0 }

/-- Float conversions for examples (decimal digits only). -/
def fc_digits : FloatConv :=
  { to_u32 := fun s => (atoi s).toNat % 2 ^ 32, gain_tenths := fun s => atoi s * 10 }

/-- A control datagram is well formed when it has at least five bytes and its
first byte is one of the three opcodes. -/
def well_formed (dg : List Byte) : Prop :=
  5 ≤ dg.length ∧ (dg.getD 0 0 = 1 ∨ dg.getD 0 0 = 2 ∨ dg.getD 0 0 = 3)

instance well_formed_decidable (dg : List Byte) : Decidable (well_formed dg) := by
  unfold well_formed
  infer_instance

/-- The command a datagram stands for, by the table of the control protocol:
opcode in byte 0, big-endian 32-bit parameter in bytes 1 to 4, read as signed
for the gain; `none` when the datagram is not a well-formed command. -/
def decode (dg : List Byte) : Option Call :=
  if 5 ≤ dg.length then
    let v := be32 (dg.getD 1 0) (dg.getD 2 0) (dg.getD 3 0) (dg.getD 4 0)
    if dg.getD 0 0 = 1 then some (Call.set_center_freq v)
    else if dg.getD 0 0 = 2 then some (Call.set_sample_rate v)
    else if dg.getD 0 0 = 3 then
      some (Call.set_tuner_gain (if v < 2 ^ 31 then (v : Int) else (v : Int) - 2 ^ 32))
    else none
  else none

/-- The five-byte set-frequency command for `v`: opcode `0x01`, then `v >> 24`,
`v >> 16 & 0xFF`, `v >> 8 & 0xFF`, `v & 0xFF`. -/
def encode_freq (v : Nat) : List Byte :=
  [1, Fin.ofNat (v / 2 ^ 24), Fin.ofNat (v / 2 ^ 16 % 256), Fin.ofNat (v / 2 ^ 8 % 256),
    Fin.ofNat (v % 256)]

/-- What `main` establishes for the options `-p 5000` when every set-up call
succeeds. -/
def setup_p5000 : Setup :=
  { locals := { freq := 100000000, samp_rate := 2048000, gain := 0, dev_index := 0,
                port := 5000, dest_ip := some "127.0.0.1", dest_port := 1234 },
    serv_port := 5000, ctrl_port := 5001,
    dest_addr := { sin_addr := "127.0.0.1", sin_port := 1234 },
    banner := "Streaming to 127.0.0.1:1234, control on port 5001\n" }

/-- What `main` establishes for the options `-p 65535` when every set-up call
succeeds. -/
def setup_p65535 : Setup :=
  { locals := { freq := 100000000, samp_rate := 2048000, gain := 0, dev_index := 0,
                port := 65535, dest_ip := some "127.0.0.1", dest_port := 1234 },
    serv_port := 65535, ctrl_port := 0,
    dest_addr := { sin_addr := "127.0.0.1", sin_port := 1234 },
    banner := "Streaming to 127.0.0.1:1234, control on port 65536\n" }

/-- What `main` establishes without options when every set-up call succeeds. -/
def setup_default : Setup :=
  { locals := Locals.init, serv_port := 1234, ctrl_port := 1235,
    dest_addr := { sin_addr := "127.0.0.1", sin_port := 1234 },
    banner := "Streaming to 127.0.0.1:1234, control on port 1235\n" }

/-! ## Theorems -/

/-! ## Auxiliary facts -/

theorem be32_lt (b1 b2 b3 b4 : Byte) : be32 b1 b2 b3 b4 < 2 ^ 32 := by
  have h1 := b1.isLt
  have h2 := b2.isLt
  have h3 := b3.isLt
  have h4 := b4.isLt
  simp only [be32]
  omega

theorem ntohl_load_u32 (le : Bool) (op b1 b2 b3 b4 : Byte) (rest : List Byte) :
    ntohl le (load_u32 le (op :: b1 :: b2 :: b3 :: b4 :: rest) 1) = be32 b1 b2 b3 b4 := by
  have h1 := b1.isLt
  have h2 := b2.isLt
  have h3 := b3.isLt
  have h4 := b4.isLt
  cases le
  · simp [ntohl, load_u32, be32]
  · simp only [ntohl, load_u32, be32, bswap32, List.getD_cons_succ, List.getD_cons_zero, if_true]
    omega

theorem to_int32_be32 (b1 b2 b3 b4 : Byte) :
    to_int32 (be32 b1 b2 b3 b4)
      = if be32 b1 b2 b3 b4 < 2 ^ 31 then (be32 b1 b2 b3 b4 : Int)
        else (be32 b1 b2 b3 b4 : Int) - 2 ^ 32 := by
  have h := be32_lt b1 b2 b3 b4
  simp only [to_int32, Nat.mod_eq_of_lt h]

theorem ctrl_iter_set_center_freq {D : Type} (P : Platform D) (st : State D)
    (b1 b2 b3 b4 : Byte) (tail : List Byte) :
    ctrl_iter P (.datagram (1 :: b1 :: b2 :: b3 :: b4 :: tail)) st =
      { st with
        cmd_buffer := recvfrom_buf (.datagram (1 :: b1 :: b2 :: b3 :: b4 :: tail)) st.cmd_buffer,
        dev := (P.rtlsdr_set_center_freq st.dev (be32 b1 b2 b3 b4)).2,
        calls := st.calls ++ [Call.set_center_freq (be32 b1 b2 b3 b4)] } := by
  have hlen : ¬ ((tail.length : Int) + 1 + 1 + 1 + 1 + 1 ≤ 0) := by omega
  have hlen5 : (5 : Int) ≤ (tail.length : Int) + 1 + 1 + 1 + 1 + 1 := by omega
  simp [ctrl_iter, recvfrom_ret, recvfrom_buf, CMD_BUFFER_SIZE, ntohl_load_u32, hlen, hlen5]

theorem ctrl_iter_set_sample_rate {D : Type} (P : Platform D) (st : State D)
    (b1 b2 b3 b4 : Byte) (tail : List Byte) :
    ctrl_iter P (.datagram (2 :: b1 :: b2 :: b3 :: b4 :: tail)) st =
      { st with
        cmd_buffer := recvfrom_buf (.datagram (2 :: b1 :: b2 :: b3 :: b4 :: tail)) st.cmd_buffer,
        dev := (P.rtlsdr_set_sample_rate st.dev (be32 b1 b2 b3 b4)).2,
        calls := st.calls ++ [Call.set_sample_rate (be32 b1 b2 b3 b4)] } := by
  have hlen : ¬ ((tail.length : Int) + 1 + 1 + 1 + 1 + 1 ≤ 0) := by omega
  have hlen5 : (5 : Int) ≤ (tail.length : Int) + 1 + 1 + 1 + 1 + 1 := by omega
  simp [ctrl_iter, recvfrom_ret, recvfrom_buf, CMD_BUFFER_SIZE, ntohl_load_u32, hlen, hlen5]

theorem ctrl_iter_set_tuner_gain {D : Type} (P : Platform D) (st : State D)
    (b1 b2 b3 b4 : Byte) (tail : List Byte) :
    ctrl_iter P (.datagram (3 :: b1 :: b2 :: b3 :: b4 :: tail)) st =
      { st with
        cmd_buffer := recvfrom_buf (.datagram (3 :: b1 :: b2 :: b3 :: b4 :: tail)) st.cmd_buffer,
        dev := (P.rtlsdr_set_tuner_gain st.dev (to_int32 (be32 b1 b2 b3 b4))).2,
        calls := st.calls ++ [Call.set_tuner_gain (to_int32 (be32 b1 b2 b3 b4))] } := by
  have hlen : ¬ ((tail.length : Int) + 1 + 1 + 1 + 1 + 1 ≤ 0) := by omega
  have hlen5 : (5 : Int) ≤ (tail.length : Int) + 1 + 1 + 1 + 1 + 1 := by omega
  simp [ctrl_iter, recvfrom_ret, recvfrom_buf, CMD_BUFFER_SIZE, ntohl_load_u32, hlen, hlen5]

theorem ctrl_iter_unknown {D : Type} (P : Platform D) (st : State D)
    (op : Byte) (tail : List Byte) (h1 : op ≠ 1) (h2 : op ≠ 2) (h3 : op ≠ 3) :
    ctrl_iter P (.datagram (op :: tail)) st =
      { st with
        cmd_buffer := recvfrom_buf (.datagram (op :: tail)) st.cmd_buffer,
        log := st.log ++ ["Unknown command: " ++ toString op.val ++ "\n"] } := by
  have v1 : op.val ≠ 1 := fun h => h1 (Fin.ext h)
  have v2 : op.val ≠ 2 := fun h => h2 (Fin.ext h)
  have v3 : op.val ≠ 3 := fun h => h3 (Fin.ext h)
  have hlen : ¬ ((tail.length : Int) + 1 ≤ 0) := by omega
  simp [ctrl_iter, recvfrom_ret, recvfrom_buf, CMD_BUFFER_SIZE, hlen, v1, v2, v3]

theorem ctrl_iter_short {D : Type} (P : Platform D) (st : State D)
    (op : Byte) (tail : List Byte) (hop : op = 1 ∨ op = 2 ∨ op = 3) (hlen : tail.length < 4) :
    ctrl_iter P (.datagram (op :: tail)) st =
      { st with cmd_buffer := recvfrom_buf (.datagram (op :: tail)) st.cmd_buffer } := by
  have hlen0 : ¬ ((tail.length : Int) + 1 ≤ 0) := by omega
  have hlen5 : ¬ ((5 : Int) ≤ (tail.length : Int) + 1) := by omega
  rcases hop with h | h | h <;> subst h <;>
    simp [ctrl_iter, recvfrom_ret, recvfrom_buf, CMD_BUFFER_SIZE, hlen0, hlen5]

/-- While `do_exit` is clear, the controller loop runs its body on what
`recvfrom` delivered and goes on with the remaining events. -/
theorem udp_control_thread_recv {D : Type} (P : Platform D) (st : State D)
    (res : RecvResult) (rest : List CtrlEvent) (h : st.do_exit = false) :
    udp_control_thread P (.recv res :: rest) st = udp_control_thread P rest (ctrl_iter P res st) := by
  simp [udp_control_thread, ctrl_step, h]

/-- The body of the controller loop never writes `do_exit`. -/
theorem ctrl_iter_do_exit {D : Type} (P : Platform D) (res : RecvResult) (st : State D) :
    (ctrl_iter P res st).do_exit = st.do_exit := by
  unfold ctrl_iter
  simp only []
  split_ifs <;> first | rfl | (split <;> rfl)

/-! ## The controller: well-formed, short and unknown commands -/

/-- C1: on a control datagram of at least five bytes whose byte 0 is 0x01
(resp. 0x02, 0x03), one run of the body of the controller loop adds exactly one
setter call to the calls made so far: `set_center_freq` (resp.
`set_sample_rate`, `set_tuner_gain`) with the big-endian value
`b1*2^24 + b2*2^16 + b3*2^8 + b4` of bytes 1 to 4, read as a signed 32-bit
integer for the gain; the device is what that setter leaves; the bytes after
index 4 (`tail`) play no part. The datagram `02 00 1E 84 80` calls the
sample-rate setter with 2000000. -/
theorem ctrl_iter_well_formed {D : Type} (P : Platform D) (st : State D)
    (b1 b2 b3 b4 : Byte) (tail : List Byte) :
    ((ctrl_iter P (.datagram (1 :: b1 :: b2 :: b3 :: b4 :: tail)) st).calls
        = st.calls ++ [Call.set_center_freq (be32 b1 b2 b3 b4)]
      ∧ (ctrl_iter P (.datagram (1 :: b1 :: b2 :: b3 :: b4 :: tail)) st).dev
        = (P.rtlsdr_set_center_freq st.dev (be32 b1 b2 b3 b4)).2)
    ∧ ((ctrl_iter P (.datagram (2 :: b1 :: b2 :: b3 :: b4 :: tail)) st).calls
        = st.calls ++ [Call.set_sample_rate (be32 b1 b2 b3 b4)]
      ∧ (ctrl_iter P (.datagram (2 :: b1 :: b2 :: b3 :: b4 :: tail)) st).dev
        = (P.rtlsdr_set_sample_rate st.dev (be32 b1 b2 b3 b4)).2)
    ∧ ((ctrl_iter P (.datagram (3 :: b1 :: b2 :: b3 :: b4 :: tail)) st).calls
        = st.calls ++ [Call.set_tuner_gain
            (if be32 b1 b2 b3 b4 < 2 ^ 31 then (be32 b1 b2 b3 b4 : Int)
             else (be32 b1 b2 b3 b4 : Int) - 2 ^ 32)]
      ∧ (ctrl_iter P (.datagram (3 :: b1 :: b2 :: b3 :: b4 :: tail)) st).dev
        = (P.rtlsdr_set_tuner_gain st.dev
            (if be32 b1 b2 b3 b4 < 2 ^ 31 then (be32 b1 b2 b3 b4 : Int)
             else (be32 b1 b2 b3 b4 : Int) - 2 ^ 32)).2)
    ∧ (ctrl_iter P (.datagram [0x02, 0x00, 0x1E, 0x84, 0x80]) st).calls
        = st.calls ++ [Call.set_sample_rate 2000000] := by
  refine ⟨⟨?_, ?_⟩, ⟨?_, ?_⟩, ⟨?_, ?_⟩, ?_⟩
  · rw [ctrl_iter_set_center_freq]
  · rw [ctrl_iter_set_center_freq]
  · rw [ctrl_iter_set_sample_rate]
  · rw [ctrl_iter_set_sample_rate]
  · rw [ctrl_iter_set_tuner_gain, to_int32_be32]
  · rw [ctrl_iter_set_tuner_gain, to_int32_be32]
  · rw [ctrl_iter_set_sample_rate]
    rfl

/-- C2: on a control datagram of one to four bytes whose byte 0 is 0x01, 0x02
or 0x03, one run of the body of the controller loop calls no setter, leaves the
device as it is, writes no log line, sends nothing, and the loop goes on: it
neither sets `do_exit` nor closes the control socket, and with `do_exit` clear
it takes the next event. -/
theorem ctrl_iter_short_ignored {D : Type} (P : Platform D) (st : State D)
    (op : Byte) (tail : List Byte) (hop : op = 1 ∨ op = 2 ∨ op = 3) (hlen : tail.length < 4) :
    (ctrl_iter P (.datagram (op :: tail)) st).calls = st.calls
    ∧ (ctrl_iter P (.datagram (op :: tail)) st).dev = st.dev
    ∧ (ctrl_iter P (.datagram (op :: tail)) st).log = st.log
    ∧ (ctrl_iter P (.datagram (op :: tail)) st).sent = st.sent
    ∧ (ctrl_iter P (.datagram (op :: tail)) st).do_exit = st.do_exit
    ∧ (ctrl_iter P (.datagram (op :: tail)) st).ctrl_sockfd_closed = st.ctrl_sockfd_closed
    ∧ ∀ rest : List CtrlEvent, st.do_exit = false →
        udp_control_thread P (.recv (.datagram (op :: tail)) :: rest) st
          = udp_control_thread P rest (ctrl_iter P (.datagram (op :: tail)) st) := by
  rw [ctrl_iter_short P st op tail hop hlen]
  refine ⟨rfl, rfl, rfl, rfl, rfl, rfl, ?_⟩
  intro rest h
  rw [udp_control_thread_recv P st _ rest h, ctrl_iter_short P st op tail hop hlen]

/-- Instance of C2: the three-byte datagram `01 00 00`. -/
theorem ctrl_iter_short_ignored_witness :
    ((1 : Byte) = 1 ∨ (1 : Byte) = 2 ∨ (1 : Byte) = 3)
    ∧ ([0, 0] : List Byte).length < 4
    ∧ (ctrl_iter (storing true) (.datagram [1, 0, 0]) (idle default_cfg)).calls = []
    ∧ (ctrl_iter (storing true) (.datagram [1, 0, 0]) (idle default_cfg)).dev = default_cfg
    ∧ (ctrl_iter (storing true) (.datagram [1, 0, 0]) (idle default_cfg)).log = [] :=
  ⟨by decide, by decide,
    (ctrl_iter_short_ignored (storing true) (idle default_cfg) 1 [0, 0] (by decide) (by decide)).1,
    (ctrl_iter_short_ignored (storing true) (idle default_cfg) 1 [0, 0] (by decide) (by decide)).2.1,
    (ctrl_iter_short_ignored (storing true) (idle default_cfg) 1 [0, 0] (by decide) (by decide)).2.2.1⟩

/-- C3: on a control datagram of at least one byte whose byte 0 is none of
0x01, 0x02, 0x03, one run of the body of the controller loop calls no setter,
leaves the device as it is, and adds exactly one line to the log,
`Unknown command: ` followed by the opcode in decimal, whatever the remaining
bytes (`tail`) are. -/
theorem ctrl_iter_unknown_command {D : Type} (P : Platform D) (st : State D)
    (op : Byte) (tail : List Byte) (h1 : op ≠ 1) (h2 : op ≠ 2) (h3 : op ≠ 3) :
    (ctrl_iter P (.datagram (op :: tail)) st).calls = st.calls
    ∧ (ctrl_iter P (.datagram (op :: tail)) st).dev = st.dev
    ∧ (ctrl_iter P (.datagram (op :: tail)) st).log
        = st.log ++ ["Unknown command: " ++ toString op.val ++ "\n"] := by
  rw [ctrl_iter_unknown P st op tail h1 h2 h3]
  exact ⟨rfl, rfl, rfl⟩

/-- Instance of C3: the datagram `09 FF FF FF 80 07`. -/
theorem ctrl_iter_unknown_command_witness :
    (9 : Byte) ≠ 1 ∧ (9 : Byte) ≠ 2 ∧ (9 : Byte) ≠ 3
    ∧ (ctrl_iter (storing true) (.datagram [9, 0xFF, 0xFF, 0xFF, 0x80, 7]) (idle default_cfg)).calls
        = []
    ∧ (ctrl_iter (storing true) (.datagram [9, 0xFF, 0xFF, 0xFF, 0x80, 7]) (idle default_cfg)).log
        = ["Unknown command: 9\n"] :=
  ⟨by decide, by decide, by decide,
    (ctrl_iter_unknown_command (storing true) (idle default_cfg) 9 [0xFF, 0xFF, 0xFF, 0x80, 7]
      (by decide) (by decide) (by decide)).1,
    (ctrl_iter_unknown_command (storing true) (idle default_cfg) 9 [0xFF, 0xFF, 0xFF, 0x80, 7]
      (by decide) (by decide) (by decide)).2.2⟩

/-! ## The controller: sequences of commands, round trip, failing setters -/

theorem ctrl_iter_decode {D : Type} (P : Platform D) (st : State D) (dg : List Byte)
    (hwf : well_formed dg) :
    (ctrl_iter P (.datagram dg) st).calls.map some = st.calls.map some ++ [decode dg] := by
  obtain ⟨hlen, hop⟩ := hwf
  match dg, hlen, hop with
  | op :: b1 :: b2 :: b3 :: b4 :: tail, _, hop =>
    simp only [List.getD_cons_zero] at hop
    rcases hop with h | h | h <;> subst h
    · rw [ctrl_iter_set_center_freq]
      simp [decode]
    · rw [ctrl_iter_set_sample_rate]
      simp [decode]
    · rw [ctrl_iter_set_tuner_gain, to_int32_be32]
      simp [decode]

theorem udp_control_thread_calls {D : Type} (P : Platform D) (dgs : List (List Byte))
    (hwf : ∀ dg ∈ dgs, well_formed dg) :
    ∀ st : State D, st.do_exit = false →
      (udp_control_thread P (dgs.map (fun dg => CtrlEvent.recv (.datagram dg))) st).calls.map some
        = st.calls.map some ++ dgs.map decode := by
  induction dgs with
  | nil =>
    intro st h
    simp [udp_control_thread, h]
  | cons dg rest ih =>
    intro st h
    have hdg : well_formed dg := hwf dg (List.mem_cons_self _ _)
    have hrest : ∀ d ∈ rest, well_formed d := fun d hd => hwf d (List.mem_cons_of_mem _ hd)
    have hexit : (ctrl_iter P (.datagram dg) st).do_exit = false := by
      rw [ctrl_iter_do_exit]; exact h
    rw [List.map_cons, udp_control_thread_recv P st _ _ h, ih hrest _ hexit,
      ctrl_iter_decode P st dg hdg]
    simp

/-- C5: when the controller loop, entered with `do_exit` clear, receives a
finite sequence of well-formed control datagrams, the setter calls it adds are
the decoded commands of the datagrams, one call per datagram and in the order
of receipt. For two set-frequency datagrams with values A then B the frequency
setter is called with A and then with B, and on a device whose setters store
their argument the frequency is B at the end. -/
theorem udp_control_thread_in_order {D : Type} (P : Platform D) (st : State D)
    (dgs : List (List Byte)) (hwf : ∀ dg ∈ dgs, well_formed dg) (h : st.do_exit = false) :
    (udp_control_thread P (dgs.map (fun dg => CtrlEvent.recv (.datagram dg))) st).calls.map some
        = st.calls.map some ++ dgs.map decode
    ∧ (udp_control_thread P (dgs.map (fun dg => CtrlEvent.recv (.datagram dg))) st).calls.length
        = st.calls.length + dgs.length
    ∧ ∀ (le : Bool) (s : State DevCfg) (a1 a2 a3 a4 b1 b2 b3 b4 : Byte) (ta tb : List Byte),
        s.do_exit = false →
        (udp_control_thread (storing le)
            [.recv (.datagram (1 :: a1 :: a2 :: a3 :: a4 :: ta)),
             .recv (.datagram (1 :: b1 :: b2 :: b3 :: b4 :: tb))] s).calls
          = s.calls ++ [Call.set_center_freq (be32 a1 a2 a3 a4),
                        Call.set_center_freq (be32 b1 b2 b3 b4)]
        ∧ (udp_control_thread (storing le)
            [.recv (.datagram (1 :: a1 :: a2 :: a3 :: a4 :: ta)),
             .recv (.datagram (1 :: b1 :: b2 :: b3 :: b4 :: tb))] s).dev.freq
          = be32 b1 b2 b3 b4 := by
  have hcalls := udp_control_thread_calls P dgs hwf st h
  refine ⟨hcalls, ?_, ?_⟩
  · have hl := congrArg List.length hcalls
    simpa using hl
  · intro le s a1 a2 a3 a4 b1 b2 b3 b4 ta tb hs
    have h1 : (ctrl_iter (storing le) (.datagram (1 :: a1 :: a2 :: a3 :: a4 :: ta)) s).do_exit
        = false := by rw [ctrl_iter_do_exit]; exact hs
    have h2 : (ctrl_iter (storing le) (.datagram (1 :: b1 :: b2 :: b3 :: b4 :: tb))
        (ctrl_iter (storing le) (.datagram (1 :: a1 :: a2 :: a3 :: a4 :: ta)) s)).do_exit
        = false := by rw [ctrl_iter_do_exit]; exact h1
    rw [udp_control_thread_recv _ s _ _ hs, udp_control_thread_recv _ _ _ _ h1]
    simp only [udp_control_thread, h2]
    rw [ctrl_iter_set_center_freq, ctrl_iter_set_center_freq]
    simp [storing]

/-- Instance of C5: set frequency 100000000 (`05 F5 E1 00`), then set frequency
915000000 (`36 89 CA C0`), on the storing device. -/
theorem udp_control_thread_in_order_witness :
    (∀ dg ∈ [[1, 0x05, 0xF5, 0xE1, 0x00], [1, 0x36, 0x89, 0xCA, 0xC0]], well_formed dg)
    ∧ (idle default_cfg).do_exit = false
    ∧ (udp_control_thread (storing true)
        ([[1, 0x05, 0xF5, 0xE1, 0x00], [1, 0x36, 0x89, 0xCA, 0xC0]].map
          (fun dg => CtrlEvent.recv (.datagram dg))) (idle default_cfg)).calls.map some
        = [some (Call.set_center_freq 100000000), some (Call.set_center_freq 915000000)] :=
  ⟨by decide, rfl,
    (udp_control_thread_in_order (storing true) (idle default_cfg)
      [[1, 0x05, 0xF5, 0xE1, 0x00], [1, 0x36, 0x89, 0xCA, 0xC0]] (by decide) rfl).1⟩

theorem be32_encode (v : Nat) (hv : v < 2 ^ 32) :
    be32 (Fin.ofNat (v / 2 ^ 24)) (Fin.ofNat (v / 2 ^ 16 % 256)) (Fin.ofNat (v / 2 ^ 8 % 256))
      (Fin.ofNat (v % 256)) = v := by
  simp only [be32, Fin.ofNat]
  omega

/-- C6: round trip. For every `v < 2^32` the five-byte command made of opcode
0x01 and the big-endian bytes of `v` is decoded by the controller (`ntohl` of
the word at bytes 1 to 4) to `v`, and the frequency setter is called with
`v`. -/
theorem encode_freq_round_trip {D : Type} (P : Platform D) (st : State D) (v : Nat)
    (hv : v < 2 ^ 32) :
    ntohl P.little_endian (load_u32 P.little_endian (encode_freq v) 1) = v
    ∧ (ctrl_iter P (.datagram (encode_freq v)) st).calls = st.calls ++ [Call.set_center_freq v]
    ∧ (ctrl_iter P (.datagram (encode_freq v)) st).dev = (P.rtlsdr_set_center_freq st.dev v).2 := by
  unfold encode_freq
  rw [ntohl_load_u32, ctrl_iter_set_center_freq, be32_encode v hv]
  exact ⟨rfl, rfl, rfl⟩

/-- Instance of C6: `v = 915000000`, encoded as `01 36 89 CA C0`. -/
theorem encode_freq_round_trip_witness :
    915000000 < 2 ^ 32
    ∧ encode_freq 915000000 = [0x01, 0x36, 0x89, 0xCA, 0xC0]
    ∧ ntohl true (load_u32 true (encode_freq 915000000) 1) = 915000000
    ∧ (ctrl_iter (storing true) (.datagram (encode_freq 915000000)) (idle default_cfg)).calls
        = [Call.set_center_freq 915000000] :=
  ⟨by decide, by decide,
    (encode_freq_round_trip (storing true) (idle default_cfg) 915000000 (by decide)).1,
    (encode_freq_round_trip (storing true) (idle default_cfg) 915000000 (by decide)).2.1⟩

/-- C8 does not hold as stated: with a driver whose frequency setter fails with
status -1, the well-formed datagram `01 00 00 00 00` makes the controller call
the setter, and the log is as empty after the iteration as before: the
failure is not logged. -/
theorem ctrl_iter_failure_not_logged :
    ((failing true).rtlsdr_set_center_freq default_cfg 0).1 < 0
    ∧ (ctrl_iter (failing true) (.datagram [1, 0, 0, 0, 0]) (idle default_cfg)).calls
        = [Call.set_center_freq 0]
    ∧ (ctrl_iter (failing true) (.datagram [1, 0, 0, 0, 0]) (idle default_cfg)).log = [] := by
  decide

/-- C8, amended: for every well-formed control datagram, whatever status the
setter returns (the driver is arbitrary, so a failing one is included), the
controller writes no log line, does not set `do_exit`, does not close the
control socket, and with `do_exit` clear the loop goes on to the next
receive. -/
theorem ctrl_iter_status_dropped {D : Type} (P : Platform D) (st : State D) (dg : List Byte)
    (hwf : well_formed dg) (h : st.do_exit = false) :
    (ctrl_iter P (.datagram dg) st).log = st.log
    ∧ (ctrl_iter P (.datagram dg) st).do_exit = false
    ∧ (ctrl_iter P (.datagram dg) st).ctrl_sockfd_closed = st.ctrl_sockfd_closed
    ∧ ∀ (next : RecvResult) (rest : List CtrlEvent),
        udp_control_thread P (.recv (.datagram dg) :: .recv next :: rest) st
          = udp_control_thread P rest (ctrl_iter P next (ctrl_iter P (.datagram dg) st)) := by
  have hexit : (ctrl_iter P (.datagram dg) st).do_exit = false := by
    rw [ctrl_iter_do_exit]; exact h
  refine ⟨?_, hexit, ?_, ?_⟩
  · obtain ⟨hlen, hop⟩ := hwf
    match dg, hlen, hop with
    | op :: b1 :: b2 :: b3 :: b4 :: tail, _, hop =>
      simp only [List.getD_cons_zero] at hop
      rcases hop with h | h | h <;> subst h
      · rw [ctrl_iter_set_center_freq]
      · rw [ctrl_iter_set_sample_rate]
      · rw [ctrl_iter_set_tuner_gain]
  · obtain ⟨hlen, hop⟩ := hwf
    match dg, hlen, hop with
    | op :: b1 :: b2 :: b3 :: b4 :: tail, _, hop =>
      simp only [List.getD_cons_zero] at hop
      rcases hop with h | h | h <;> subst h
      · rw [ctrl_iter_set_center_freq]
      · rw [ctrl_iter_set_sample_rate]
      · rw [ctrl_iter_set_tuner_gain]
  · intro next rest
    rw [udp_control_thread_recv P st _ _ h, udp_control_thread_recv P _ _ _ hexit]

/-- Instance of the amended C8 with the failing driver: the setter returns -1,
nothing is logged and the loop takes the next datagram, whose setter is called
in turn. -/
theorem ctrl_iter_status_dropped_witness :
    well_formed [1, 0, 0, 0, 0]
    ∧ (idle default_cfg).do_exit = false
    ∧ ((failing true).rtlsdr_set_center_freq default_cfg 0).1 = -1
    ∧ (ctrl_iter (failing true) (.datagram [1, 0, 0, 0, 0]) (idle default_cfg)).log = []
    ∧ (ctrl_iter (failing true) (.datagram [1, 0, 0, 0, 0]) (idle default_cfg)).do_exit = false :=
  ⟨by decide, rfl, rfl,
    (ctrl_iter_status_dropped (failing true) (idle default_cfg) [1, 0, 0, 0, 0] (by decide) rfl).1,
    (ctrl_iter_status_dropped (failing true) (idle default_cfg) [1, 0, 0, 0, 0] (by decide) rfl).2.1⟩

/-! ## The streamer -/

/-- While `do_exit` is clear, the streamer loop runs its body on what the
device read delivered and goes on with the remaining events. -/
theorem udp_server_thread_read {D : Type} (st : State D) (res : ReadResult)
    (rest : List DataEvent) (h : st.do_exit = false) :
    udp_server_thread (.read res :: rest) st = udp_server_thread rest (server_iter res st) := by
  simp [udp_server_thread, server_step, h]

/-- Once `do_exit` is set, the streamer loop leaves at its next test, whatever
events remain. -/
theorem udp_server_thread_exit {D : Type} (st : State D) (evs : List DataEvent)
    (h : st.do_exit = true) :
    udp_server_thread evs st = { st with sockfd_closed := true } := by
  cases evs <;> simp [udp_server_thread, h]

theorem take_read_sync_buf (written old : List Byte) (k : Nat) (hk : k ≤ BUFFER_SIZE)
    (hw : k ≤ written.length) : (read_sync_buf written old).take k = written.take k := by
  unfold read_sync_buf
  rw [List.take_append_of_le_length (by rw [List.length_take]; omega), List.take_take]
  congr 1
  omega

theorem server_iter_failed {D : Type} (st : State D) (res : ReadResult)
    (hres : res.r < 0 ∨ res.n ≤ 0) :
    server_iter res st =
      { st with reads := st.reads + 1, buffer := read_sync_buf res.written st.buffer,
                log := st.log ++ ["read error or no data\n"] } := by
  simp [server_iter, hres]

theorem server_iter_ok {D : Type} (st : State D) (res : ReadResult)
    (hr : 0 ≤ res.r) (hn : 0 < res.n) :
    server_iter res st =
      { st with reads := st.reads + 1, buffer := read_sync_buf res.written st.buffer,
                sent := st.sent ++
                  [Sendto.mk st.dest_addr ((read_sync_buf res.written st.buffer).take res.n.toNat)] } := by
  have h : ¬ (res.r < 0 ∨ res.n ≤ 0) := by omega
  simp [server_iter, h]

/-- C4: a streamer iteration entered with `do_exit` clear runs the loop body on
the result of the device read. If the read returns a status `r >= 0` and a
count `0 < n <= 16384`, and the device wrote at least `n` bytes into the block,
exactly one datagram is added to those sent: it goes to `dest_addr` and its
payload is the first `n` bytes the device wrote. If the read returns `r < 0` or
`n <= 0`, nothing is added to the datagrams sent. -/
theorem server_iter_sends_block {D : Type} (st : State D) (res : ReadResult)
    (rest : List DataEvent) (h : st.do_exit = false) :
    udp_server_thread (.read res :: rest) st = udp_server_thread rest (server_iter res st)
    ∧ (0 ≤ res.r → 0 < res.n → res.n ≤ 16384 → res.n.toNat ≤ res.written.length →
        (server_iter res st).sent
          = st.sent ++ [{ dest := st.dest_addr, payload := res.written.take res.n.toNat }])
    ∧ (res.r < 0 ∨ res.n ≤ 0 → (server_iter res st).sent = st.sent) := by
  refine ⟨udp_server_thread_read st res rest h, ?_, ?_⟩
  · intro hr hn hmax hw
    rw [server_iter_ok st res hr hn, take_read_sync_buf _ _ _ (by unfold BUFFER_SIZE; omega) hw]
  · intro hres
    rw [server_iter_failed st res hres]

/-- Instance of C4: the device returns status 0 and three bytes. -/
theorem server_iter_sends_block_witness :
    (idle default_cfg).do_exit = false
    ∧ (0 : Int) ≤ 0 ∧ (0 : Int) < 3 ∧ (3 : Int) ≤ 16384
    ∧ (3 : Int).toNat ≤ ([10, 20, 30] : List Byte).length
    ∧ (server_iter { r := 0, n := 3, written := [10, 20, 30] } (idle default_cfg)).sent
        = [{ dest := { sin_addr := "127.0.0.1", sin_port := 1234 }, payload := [10, 20, 30] }] :=
  ⟨rfl, by decide, by decide, by decide, by decide,
    (server_iter_sends_block (idle default_cfg) { r := 0, n := 3, written := [10, 20, 30] } []
      rfl).2.1 (by decide) (by decide) (by decide) (by decide)⟩

/-- C9: in the streamer loop, entered with `do_exit` clear, a device read that
reports an error or no bytes is logged. If `do_exit` is still clear at the next
test, the loop has not ended and performs the next read. If a signal has set
`do_exit` by then, the loop ends: no further read is made, nothing is sent, and
the data socket is closed. -/
theorem udp_server_thread_failed_read {D : Type} (st : State D) (res : ReadResult)
    (h : st.do_exit = false) (hres : res.r < 0 ∨ res.n ≤ 0) :
    (server_iter res st).log = st.log ++ ["read error or no data\n"]
    ∧ (server_iter res st).do_exit = false
    ∧ (server_iter res st).sockfd_closed = st.sockfd_closed
    ∧ (∀ (res2 : ReadResult) (rest : List DataEvent),
        udp_server_thread (.read res :: .read res2 :: rest) st
          = udp_server_thread rest (server_iter res2 (server_iter res st))
        ∧ (server_iter res2 (server_iter res st)).reads = st.reads + 2)
    ∧ (∀ rest : List DataEvent,
        (udp_server_thread (.read res :: .signal :: rest) st).reads = st.reads + 1
        ∧ (udp_server_thread (.read res :: .signal :: rest) st).sent = st.sent
        ∧ (udp_server_thread (.read res :: .signal :: rest) st).sockfd_closed = true) := by
  have hexit : (server_iter res st).do_exit = false := by
    rw [server_iter_failed st res hres]; exact h
  refine ⟨?_, hexit, ?_, ?_, ?_⟩
  · rw [server_iter_failed st res hres]
  · rw [server_iter_failed st res hres]
  · intro res2 rest
    refine ⟨?_, ?_⟩
    · rw [udp_server_thread_read st res _ h, udp_server_thread_read _ res2 _ hexit]
    · rw [server_iter_failed st res hres]
      unfold server_iter
      simp only []
      split_ifs <;> rfl
  · intro rest
    have hstep : udp_server_thread (.read res :: .signal :: rest) st
        = { sighandler (server_iter res st) with sockfd_closed := true } := by
      rw [udp_server_thread_read st res _ h]
      cases rest <;> simp [udp_server_thread, server_step, hexit, sighandler]
    rw [hstep, server_iter_failed st res hres]
    exact ⟨rfl, rfl, rfl⟩

/-- Instance of C9: a failed read (status -1) followed by a signal. -/
theorem udp_server_thread_failed_read_witness :
    (idle default_cfg).do_exit = false
    ∧ ((-1 : Int) < 0 ∨ (0 : Int) ≤ 0)
    ∧ (server_iter { r := -1, n := 0, written := [] } (idle default_cfg)).log
        = ["read error or no data\n"]
    ∧ (server_iter { r := -1, n := 0, written := [] } (idle default_cfg)).do_exit = false :=
  ⟨rfl, by decide,
    (udp_server_thread_failed_read (idle default_cfg) { r := -1, n := 0, written := [] } rfl
      (by decide)).1,
    (udp_server_thread_failed_read (idle default_cfg) { r := -1, n := 0, written := [] } rfl
      (by decide)).2.1⟩

/-! ## Set-up: destination endpoint and bound ports -/

theorem sin_port_number_htons (le : Bool) (x : Nat) (hx : x < 2 ^ 16) :
    sin_port_number le (htons le x) = x := by
  cases le
  · simp [sin_port_number, htons]
  · have h8 : (2 : Nat) ^ 8 = 256 := rfl
    have hlo : (x % 256 * 256 + x / 256 % 256) % 256 = x / 256 % 256 := by omega
    have hhi : (x % 256 * 256 + x / 256 % 256) / 256 = x % 256 := by omega
    simp only [sin_port_number, htons, bswap16, if_true, h8, hlo, hhi]
    omega

theorem to_uint16_of_range (p : Int) (h0 : 0 ≤ p) (h1 : p < 2 ^ 16) : (to_uint16 p : Int) = p := by
  unfold to_uint16
  omega

theorem to_uint16_lt (p : Int) : to_uint16 p < 2 ^ 16 := by
  unfold to_uint16
  omega

theorem parse_opt_keeps_dest (fc : FloatConv) (l l1 : Locals) (o : Char × String)
    (hu : o.1 ≠ 'u') (h : parse_opt fc l o = some l1) :
    l1.dest_ip = l.dest_ip ∧ l1.dest_port = l.dest_port := by
  unfold parse_opt at h
  split at h <;> simp_all
  all_goals (subst h; exact ⟨rfl, rfl⟩)

theorem parse_opts_keeps_dest (fc : FloatConv) (opts : List (Char × String))
    (hu : ∀ o ∈ opts, o.1 ≠ 'u') :
    ∀ l l1 : Locals, parse_opts fc opts l = some l1 →
      l1.dest_ip = l.dest_ip ∧ l1.dest_port = l.dest_port := by
  induction opts with
  | nil =>
    intro l l1 h
    simp only [parse_opts, Option.some.injEq] at h
    subst h
    exact ⟨rfl, rfl⟩
  | cons o rest ih =>
    intro l l1 h
    simp only [parse_opts] at h
    cases hp : parse_opt fc l o with
    | none => simp [hp] at h
    | some l2 =>
      simp only [hp] at h
      have h2 := parse_opt_keeps_dest fc l l2 o (hu o (List.mem_cons_self _ _)) hp
      have h3 := ih (fun o ho => hu o (List.mem_cons_of_mem _ ho)) l2 l1 h
      exact ⟨h3.1.trans h2.1, h3.2.trans h2.2⟩

/-- What a successful set-up fixes: the locals come from the option loop, and
the three port numbers are the 16-bit reductions of `port`, `port + 1` and
`dest_port`. -/
theorem main_setup_ok (le : Bool) (fc : FloatConv) (opts : List (Char × String)) (env : SetupEnv)
    (s : Setup) (h : main_setup le fc opts env = .ok s) :
    parse_opts fc opts Locals.init = some s.locals
    ∧ s.serv_port = to_uint16 s.locals.port
    ∧ s.ctrl_port = to_uint16 (s.locals.port + 1)
    ∧ s.locals.dest_ip = some s.dest_addr.sin_addr
    ∧ s.dest_addr.sin_port = to_uint16 s.locals.dest_port := by
  unfold main_setup at h
  cases hl : parse_opts fc opts Locals.init with
  | none => simp [hl] at h
  | some l =>
    by_cases h1 : env.open_r < 0
    · simp [hl, h1] at h
    by_cases h2 : env.sockfd < 0
    · simp [hl, h1, h2] at h
    by_cases h3 : env.bind_r < 0
    · simp [hl, h1, h2, h3] at h
    cases hip : l.dest_ip with
    | none => simp [hl, h1, h2, h3, hip] at h
    | some ip =>
      by_cases h4 : env.ctrl_sockfd < 0
      · simp [hl, h1, h2, h3, hip, h4] at h
      by_cases h5 : env.ctrl_bind_r < 0
      · simp [hl, h1, h2, h3, hip, h4, h5] at h
      simp only [hl, h1, h2, h3, hip, h4, h5, if_false, Except.ok.injEq] at h
      subst h
      exact ⟨rfl, sin_port_number_htons le _ (to_uint16_lt _),
        sin_port_number_htons le _ (to_uint16_lt _), hip,
        sin_port_number_htons le _ (to_uint16_lt _)⟩

/-- C7 does not hold as stated: with the options `-p 5000` and no `-u`, set-up
succeeds with listen port 5000 and destination port 1234, and the streamer
started from there sends its datagram to 127.0.0.1 port 1234, not port 5000. -/
theorem dest_port_differs_from_listen_port :
    main_setup true fc_digits [('p', "5000")] env_ok = .ok setup_p5000
    ∧ setup_p5000.locals.port = 5000
    ∧ setup_p5000.serv_port = 5000
    ∧ setup_p5000.dest_addr.sin_port ≠ 5000
    ∧ (udp_server_thread [.read { r := 0, n := 2, written := [7, 9] }]
        (start_state setup_p5000 default_cfg [] [])).sent
        = [{ dest := { sin_addr := "127.0.0.1", sin_port := 1234 }, payload := [7, 9] }] := by
  refine ⟨rfl, rfl, rfl, by decide, by decide⟩

/-- C7, amended: when no `-u` option is given and set-up succeeds, the
destination endpoint is 127.0.0.1 with port 1234 (`DEFAULT_PORT`), whatever
listen port `-p` gives; the streamer started from that set-up sends each block
there. -/
theorem dest_addr_default (le : Bool) (fc : FloatConv) (opts : List (Char × String))
    (env : SetupEnv) (s : Setup) (hu : ∀ o ∈ opts, o.1 ≠ 'u')
    (h : main_setup le fc opts env = .ok s) :
    s.dest_addr = { sin_addr := "127.0.0.1", sin_port := 1234 }
    ∧ ∀ (dev : DevCfg) (buffer cmd_buffer : List Byte) (res : ReadResult),
        0 ≤ res.r → 0 < res.n →
        ((server_iter res (start_state s dev buffer cmd_buffer)).sent.map Sendto.dest)
          = [{ sin_addr := "127.0.0.1", sin_port := 1234 }] := by
  obtain ⟨hl, -, -, hip, hport⟩ := main_setup_ok le fc opts env s h
  obtain ⟨kip, kport⟩ := parse_opts_keeps_dest fc opts hu Locals.init s.locals hl
  have hdest : s.dest_addr = { sin_addr := "127.0.0.1", sin_port := 1234 } := by
    rw [kip] at hip
    rw [kport] at hport
    have haddr : s.dest_addr.sin_addr = "127.0.0.1" := by
      simp only [Locals.init, DEFAULT_DEST_IP, Option.some.injEq] at hip
      exact hip.symm
    have hp : s.dest_addr.sin_port = 1234 := by
      rw [hport]
      rfl
    cases hd : s.dest_addr with
    | mk a p =>
      rw [hd] at haddr hp
      simp only at haddr hp
      rw [haddr, hp]
  refine ⟨hdest, ?_⟩
  intro dev buffer cmd_buffer res hr hn
  rw [server_iter_ok _ res hr hn]
  simp [start_state, hdest]

/-- Instance of the amended C7: the options `-p 5000`. -/
theorem dest_addr_default_witness :
    (∀ o ∈ [('p', "5000")], o.1 ≠ 'u')
    ∧ main_setup true fc_digits [('p', "5000")] env_ok = .ok setup_p5000
    ∧ setup_p5000.dest_addr = { sin_addr := "127.0.0.1", sin_port := 1234 } :=
  ⟨by decide, rfl,
    (dest_addr_default true fc_digits [('p', "5000")] env_ok setup_p5000 (by decide) rfl).1⟩

/-- C10 does not hold as stated: with the option `-p 65535` set-up succeeds, the
data socket is bound to port 65535 and the port number passed to `bind` for the
control socket is 0, not 65536 (which the start-up line of the program
announces). -/
theorem ctrl_port_wraps_at_65535 :
    main_setup true fc_digits [('p', "65535")] env_ok = .ok setup_p65535
    ∧ setup_p65535.locals.port = 65535
    ∧ setup_p65535.serv_port = 65535
    ∧ setup_p65535.ctrl_port = 0
    ∧ (setup_p65535.ctrl_port : Int) ≠ setup_p65535.locals.port + 1
    ∧ setup_p65535.banner = "Streaming to 127.0.0.1:1234, control on port 65536\n" := by
  refine ⟨rfl, rfl, rfl, rfl, by decide, rfl⟩

/-- C10, amended: when set-up succeeds with a listen port `p` in the range
`0 <= p <= 65534`, the port number passed to `bind` for the data socket is `p`
and the one passed for the control socket is `p + 1`; `p` is the value the
option loop leaves in `port` (1234 without `-p`). -/
theorem bound_ports_in_range (le : Bool) (fc : FloatConv) (opts : List (Char × String))
    (env : SetupEnv) (s : Setup) (h : main_setup le fc opts env = .ok s)
    (h0 : 0 ≤ s.locals.port) (h1 : s.locals.port ≤ 65534) :
    parse_opts fc opts Locals.init = some s.locals
    ∧ (s.serv_port : Int) = s.locals.port
    ∧ (s.ctrl_port : Int) = s.locals.port + 1 := by
  obtain ⟨hl, hs, hc, -, -⟩ := main_setup_ok le fc opts env s h
  refine ⟨hl, ?_, ?_⟩
  · rw [hs]
    exact to_uint16_of_range _ h0 (by omega)
  · rw [hc]
    exact to_uint16_of_range _ (by omega) (by omega)

/-- Instance of the amended C10: without options the data socket is bound to
port 1234 and the control socket to port 1235. -/
theorem bound_ports_in_range_witness :
    main_setup true fc_digits [] env_ok = .ok setup_default
    ∧ (0 : Int) ≤ setup_default.locals.port
    ∧ setup_default.locals.port ≤ 65534
    ∧ (setup_default.serv_port : Int) = 1234
    ∧ (setup_default.ctrl_port : Int) = 1235 :=
  ⟨rfl, by decide, by decide,
    (bound_ports_in_range true fc_digits [] env_ok setup_default rfl (by decide) (by decide)).2.1,
    (bound_ports_in_range true fc_digits [] env_ok setup_default rfl (by decide) (by decide)).2.2⟩

end RtlUdp
